import Mathlib

/-!
Verification of the robottelo UI page-object layer (`robottelo/ui/environment.py`)
and of the session / product-side behaviours its test suite relies on.

The page-object methods are embedded as functions producing the list of UI
actions they perform.  The browser driver is abstracted as an oracle
(`Browser`) telling which element waits succeed and which entity searches
locate an element; the page-object control flow itself is translated directly
from the source.
-/

namespace Robottelo

/-- Symbolic locators used by `Environment` (from `robottelo.ui.locators`:
`locators[...]`, `common_locators[...]` and `tab_locators[...]`). -/
inductive Locator
  | envNew
  | envName
  | envEnvName
  | envDelete
  | envDropdown
  | selectFilteredEntity
  | submit
  | tabOrg
  deriving DecidableEq

/-- A located DOM element, identified abstractly by a tag. -/
structure Element where
  tag : String
  deriving DecidableEq

/-- The browser-driver oracle: which bounded element waits succeed
(`wait_until_element`) and which listing searches locate an element
(`Base.search_entity`). -/
structure Browser where
  waitFinds : Locator → Option Element
  searchFinds : String → Locator → Option Element

/-- One UI action performed by a page-object method. -/
inductive Action
  | goToEnvironments
  | click (l : Locator)
  | clickElement (e : Element)
  | wait (l : Locator) (found : Bool)
  | sendKeys (l : Locator) (text : String)
  | fieldUpdate (fld : String) (text : String)
  | configureEntity (orgs : Option (List String)) (filterKey : String)
      (tab : Locator) (newEntityList : Option (List String)) (entitySelect : Bool)
  | searchEntity (name : String) (l : Locator)
  deriving DecidableEq

/-- `FILTER['env_org']` from `robottelo.constants`. -/
def envOrgFilter : String := "env_org"

/-- Python truthiness of the `orgs` argument (`if orgs:`): a non-`None`,
non-empty list. -/
def orgsTruthy : Option (List String) → Bool
  | some (_ :: _) => true
  | _ => false

namespace Environment

/-- `Environment.search(self, name)`: navigates to the environments listing,
then dispatches on `len(name) <= 30` between the exact-name locator
`locators['env.env_name']` and `common_locators['select_filtered_entity']`.
Returns the pair (result of `search_entity`, trace of actions). -/
def search (b : Browser) (name : String) : Option Element × List Action :=
  if name.length ≤ 30 then
    (b.searchFinds name Locator.envEnvName,
      [Action.goToEnvironments, Action.searchEntity name Locator.envEnvName])
  else
    (b.searchFinds name Locator.selectFilteredEntity,
      [Action.goToEnvironments, Action.searchEntity name Locator.selectFilteredEntity])

/-- `Environment.create(self, name, orgs, org_select=True)`: clicks
`locators['env.new']`, waits for `locators['env.name']` and types the name
only when the wait located the field, configures organizations when `orgs`
is truthy, then clicks `common_locators['submit']` unconditionally. -/
def create (b : Browser) (name : String) (orgs : Option (List String))
    (org_select : Bool) : List Action :=
  [Action.click Locator.envNew,
   Action.wait Locator.envName (b.waitFinds Locator.envName).isSome]
  ++ (match b.waitFinds Locator.envName with
      | some _ => [Action.sendKeys Locator.envName name]
      | none => [])
  ++ (if orgsTruthy orgs then
        [Action.configureEntity orgs envOrgFilter Locator.tabOrg none org_select]
      else [])
  ++ [Action.click Locator.submit]

/-- Body of `Environment.update` after the initial `self.search(old_name)`:
`if element:` guards everything; inside, the element is clicked, the name
field is rewritten when the bounded wait finds it and `new_name` is truthy,
then `configure_entity` and the submit click happen unconditionally. -/
def updateBody (b : Browser) (found : Option Element)
    (orgs new_orgs : Option (List String)) (new_name : Option String)
    (org_select : Bool) : List Action :=
  match found with
  | none => []
  | some e =>
    [Action.clickElement e,
     Action.wait Locator.envName (b.waitFinds Locator.envName).isSome]
    ++ (match b.waitFinds Locator.envName, new_name with
        | some _, some nn =>
          if nn = "" then [] else [Action.fieldUpdate "env.name" nn]
        | _, _ => [])
    ++ [Action.configureEntity orgs envOrgFilter Locator.tabOrg new_orgs org_select,
        Action.click Locator.submit]

/-- `Environment.update(self, old_name, orgs=None, new_orgs=None,
new_name=None, org_select=False)`: performs `self.search(old_name)` and then
the guarded body above. -/
def update (b : Browser) (old_name : String) (orgs new_orgs : Option (List String))
    (new_name : Option String) (org_select : Bool) : List Action :=
  (search b old_name).2
    ++ updateBody b (search b old_name).1 orgs new_orgs new_name org_select

end Environment

/-- `true` exactly on a click of the submit control. -/
def isSubmitClick : Action → Bool
  | Action.click Locator.submit => true
  | _ => false

/-- `true` on actions that change UI/session state (clicks, typing,
association edits); navigation and lookups are not mutations. -/
def isMutation : Action → Bool
  | Action.click _ => true
  | Action.clickElement _ => true
  | Action.sendKeys _ _ => true
  | Action.fieldUpdate _ _ => true
  | Action.configureEntity _ _ _ _ _ => true
  | _ => false

/-- A browser on which every wait succeeds and every search locates an
element named after the query. -/
def okBrowser : Browser :=
  ⟨fun _ => some ⟨"field"⟩, fun n _ => some ⟨n⟩⟩

/-- A browser whose environment-name field never appears, while searches
still locate entities. -/
def noNameField : Browser :=
  ⟨fun l => if l = Locator.envName then none else some ⟨"field"⟩,
   fun n _ => some ⟨n⟩⟩

/-- A browser whose listing contains no entities at all. -/
def emptyListing : Browser :=
  ⟨fun _ => some ⟨"field"⟩, fun _ _ => none⟩

/-- A 30-character name. -/
def name30 : String := "abcdefghijklmnopqrstuvwxyzabcd"

/-- How a `with Session(...)` block's body terminates: normal return or a
propagating exception. -/
inductive Outcome
  | normal
  | raised (msg : String)
  deriving DecidableEq

/-- Events of a session's lifetime. -/
inductive SessionEvent
  | login
  | step (s : String)
  | logout
  deriving DecidableEq

/-- The body of one `with Session(...)` block: the operations it performs and
how it terminates. -/
structure SessionBody where
  steps : List String
  outcome : Outcome

/-- Modelled from the spec: `robottelo.ui.session.Session` is not under
`src/` (only its uses in the tests are).  The spec says a Session is a scoped
acquisition of an authenticated browser context that "guarantees
logout/cleanup on every exit path (normal return or exception)": entering the
block logs in, and the exit handler runs the logout whether the body returned
normally or raised, re-propagating the body's outcome. -/
def Session.runBlock (body : SessionBody) : Outcome × List SessionEvent :=
  match body.outcome with
  | Outcome.normal =>
    (Outcome.normal,
      SessionEvent.login :: (body.steps.map SessionEvent.step ++ [SessionEvent.logout]))
  | Outcome.raised m =>
    (Outcome.raised m,
      SessionEvent.login :: (body.steps.map SessionEvent.step ++ [SessionEvent.logout]))

/-- Modelled from the spec: the external product's entity store (the product
under test is not part of this repository; the suite only asserts about it).
The spec's local invariant is "after delete, a subsequent read fails": the
store tracks existing entity identifiers. -/
structure EntityStore where
  ids : List Nat

/-- Modelled from the spec: creating an entity registers its server-assigned
identifier. -/
def EntityStore.createEntity (s : EntityStore) (i : Nat) : EntityStore :=
  ⟨i :: s.ids⟩

/-- Modelled from the spec: deleting an entity removes its identifier. -/
def EntityStore.deleteEntity (s : EntityStore) (i : Nat) : EntityStore :=
  ⟨s.ids.filter (fun j => j ≠ i)⟩

/-- Modelled from the spec: a CLI `info` on a missing identifier surfaces a
non-zero exit code as a typed error (`CLIReturnCodeError`). -/
def EntityStore.cliInfo (s : EntityStore) (i : Nat) : Except String Nat :=
  if i ∈ s.ids then Except.ok i else Except.error "CLIReturnCodeError"

/-- Modelled from the spec: an API `read` on a missing identifier surfaces an
HTTP error response as an exception (`HTTPError`). -/
def EntityStore.apiRead (s : EntityStore) (i : Nat) : Except String Nat :=
  if i ∈ s.ids then Except.ok i else Except.error "HTTPError"

/-- A content view version, with the set of lifecycle environments it is
available in (environments carry server-assigned numeric identifiers). -/
structure ContentViewVersion where
  environment : Finset Nat

/-- Modelled from the spec: publishing a content view produces a version
available in exactly one lifecycle environment (the organization's Library). -/
def publishVersion (libraryId : Nat) : ContentViewVersion :=
  ⟨{libraryId}⟩

/-- Modelled from the spec glossary: "Promote: product operation that makes a
content view version available in an additional lifecycle environment." -/
def promote (v : ContentViewVersion) (envId : Nat) : ContentViewVersion :=
  ⟨insert envId v.environment⟩

/-- C1: `Environment.search` dispatches on the 30-character threshold: a name
of length at most 30 (including exactly 30) is looked up with the exact-name
locator `locators['env.env_name']`, and a longer name with
`common_locators['select_filtered_entity']`. -/
theorem env_search_threshold_dispatch (b : Browser) (name : String) :
    (name.length ≤ 30 →
      (Environment.search b name).2 =
        [Action.goToEnvironments, Action.searchEntity name Locator.envEnvName]) ∧
    (30 < name.length →
      (Environment.search b name).2 =
        [Action.goToEnvironments, Action.searchEntity name Locator.selectFilteredEntity]) ∧
    (name.length = 30 →
      (Environment.search b name).2 =
        [Action.goToEnvironments, Action.searchEntity name Locator.envEnvName]) := by
  refine ⟨fun h => ?_, fun h => ?_, fun h => ?_⟩
  · simp [Environment.search, h]
  · simp [Environment.search, Nat.not_le.mpr h]
  · simp [Environment.search, Nat.le_of_eq h]

/-- Witness for C1 at a name of length exactly 30: the exact-name locator is
used. -/
theorem env_search_threshold_dispatch_witness :
    (Environment.search okBrowser name30).2 =
      [Action.goToEnvironments, Action.searchEntity name30 Locator.envEnvName] :=
  (env_search_threshold_dispatch okBrowser name30).2.2 (by decide)

/-- C2 counterexample: on a browser whose name field never appears, the
bounded wait in `Environment.create` fails, yet `create` still clicks the
submit control — it proceeds to submit the form instead of signalling
not-found. -/
theorem env_create_missing_field_still_submits :
    noNameField.waitFinds Locator.envName = none ∧
    Action.click Locator.submit ∈ Environment.create noNameField "x" none true := by
  decide

/-- C2 amended: when the bounded wait for the name field fails,
`wait_until_element` itself yields the absence signal (recorded as a failed
wait), `create` skips typing the name, but it still proceeds to click submit;
no error is raised. -/
theorem env_create_missing_field_behavior (b : Browser) (name : String)
    (orgs : Option (List String)) (sel : Bool)
    (h : b.waitFinds Locator.envName = none) :
    Action.wait Locator.envName false ∈ Environment.create b name orgs sel ∧
    (∀ t, Action.sendKeys Locator.envName t ∉ Environment.create b name orgs sel) ∧
    Action.click Locator.submit ∈ Environment.create b name orgs sel := by
  unfold Environment.create
  rw [h]
  by_cases ho : orgsTruthy orgs <;> simp [ho]

/-- Witness for C2's amended theorem on the concrete browser without a name
field. -/
theorem env_create_missing_field_behavior_witness :
    Action.click Locator.submit ∈ Environment.create noNameField "y" none true :=
  (env_create_missing_field_behavior noNameField "y" none true (by decide)).2.2

/-- C4: `Environment.search` always navigates to the environments listing
first, and its result is an `Option`: either the located element or the
absence signal `none`; it cannot raise on a missing entity. -/
theorem env_search_navigates_then_returns_option (b : Browser) (name : String) :
    ((Environment.search b name).2).head? = some Action.goToEnvironments ∧
    ((Environment.search b name).1 = none ∨
      ∃ e, (Environment.search b name).1 = some e) := by
  unfold Environment.search
  by_cases h : name.length ≤ 30 <;>
    simp [h] <;>
    rcases b.searchFinds name _ with _ | e <;> simp

/-- The search trace is exactly navigation followed by one entity lookup. -/
theorem env_search_trace_eq (b : Browser) (n : String) :
    (Environment.search b n).2 =
      [Action.goToEnvironments,
       Action.searchEntity n
         (if n.length ≤ 30 then Locator.envEnvName else Locator.selectFilteredEntity)] := by
  by_cases h : n.length ≤ 30 <;> simp [Environment.search, h]

/-- The search trace contains no submit click. -/
theorem env_search_trace_countP_submit (b : Browser) (n : String) :
    List.countP isSubmitClick (Environment.search b n).2 = 0 := by
  rw [env_search_trace_eq]
  simp [isSubmitClick, List.countP_cons]

/-- The search trace contains no state-changing action. -/
theorem env_search_trace_no_mutation (b : Browser) (n : String) :
    ∀ a ∈ (Environment.search b n).2, isMutation a = false := by
  rw [env_search_trace_eq]
  intro a ha
  simp at ha
  rcases ha with h | h <;> subst h <;> rfl

/-- C3: on an `old_name` that `search` locates (and with the name field
present and a non-empty new name supplied), `update` performs: click the
located entity, rewrite the name, configure the organization associations,
then click submit — in that order, with exactly one submit click in the whole
trace. -/
theorem env_update_located_order (b : Browser) (old_name : String) (e f : Element)
    (orgs new_orgs : Option (List String)) (nn : String) (sel : Bool)
    (hs : (Environment.search b old_name).1 = some e)
    (hw : b.waitFinds Locator.envName = some f)
    (hn : nn ≠ "") :
    Environment.update b old_name orgs new_orgs (some nn) sel =
      (Environment.search b old_name).2 ++
        [Action.clickElement e, Action.wait Locator.envName true,
         Action.fieldUpdate "env.name" nn,
         Action.configureEntity orgs envOrgFilter Locator.tabOrg new_orgs sel,
         Action.click Locator.submit] ∧
    List.countP isSubmitClick (Environment.update b old_name orgs new_orgs (some nn) sel) = 1 := by
  have h1 : Environment.update b old_name orgs new_orgs (some nn) sel =
      (Environment.search b old_name).2 ++
        [Action.clickElement e, Action.wait Locator.envName true,
         Action.fieldUpdate "env.name" nn,
         Action.configureEntity orgs envOrgFilter Locator.tabOrg new_orgs sel,
         Action.click Locator.submit] := by
    unfold Environment.update Environment.updateBody
    rw [hs, hw]
    simp [hn]
  refine ⟨h1, ?_⟩
  rw [h1, List.countP_append, env_search_trace_countP_submit]
  simp [isSubmitClick, List.countP_cons]

/-- Witness for C3 on the concrete all-finding browser. -/
theorem env_update_located_order_witness :
    List.countP isSubmitClick
      (Environment.update okBrowser "x" none none (some "n") false) = 1 :=
  (env_update_located_order okBrowser "x" ⟨"x"⟩ ⟨"field"⟩ none none "n" false
    (by decide) (by decide) (by decide)).2

/-- C5: on an `old_name` that `search` does not locate, `update` performs
nothing beyond the navigation and lookup done by `search`: its trace is the
search trace, which contains no state-changing action, and no error is
raised (the function is total). -/
theorem env_update_absent_noop (b : Browser) (old_name : String)
    (orgs new_orgs : Option (List String)) (new_name : Option String) (sel : Bool)
    (h : (Environment.search b old_name).1 = none) :
    Environment.update b old_name orgs new_orgs new_name sel =
      (Environment.search b old_name).2 ∧
    ∀ a ∈ Environment.update b old_name orgs new_orgs new_name sel,
      isMutation a = false := by
  have h1 : Environment.update b old_name orgs new_orgs new_name sel =
      (Environment.search b old_name).2 := by
    unfold Environment.update Environment.updateBody
    rw [h]
    simp
  refine ⟨h1, ?_⟩
  rw [h1]
  exact env_search_trace_no_mutation b old_name

/-- Witness for C5 on the browser whose listing is empty. -/
theorem env_update_absent_noop_witness :
    Environment.update emptyListing "x" none none none false =
      (Environment.search emptyListing "x").2 :=
  (env_update_absent_noop emptyListing "x" none none none false (by decide)).1

/-- C6: a session block performs the logout as its final event on every exit
path — for a normally returning body and for a body that raises — and the
body's outcome (including a propagating exception) is preserved. -/
theorem session_logout_on_every_exit (body : SessionBody) :
    ((Session.runBlock body).2).getLast? = some SessionEvent.logout ∧
    (Session.runBlock body).1 = body.outcome := by
  obtain ⟨steps, outcome⟩ := body
  have hl : ∀ l : List SessionEvent,
      (SessionEvent.login :: (l ++ [SessionEvent.logout])).getLast? =
        some SessionEvent.logout := by
    intro l
    exact (List.getLast?_append_cons (SessionEvent.login :: l)
      SessionEvent.logout []).trans (by simp)
  cases outcome <;> exact ⟨hl _, rfl⟩

/-- C7: creating an entity and deleting it by the same identifier makes a
subsequent lookup fail: the CLI `info` yields the non-zero-return-code error
and the API `read` yields the HTTP error. -/
theorem delete_then_read_fails (s : EntityStore) (i : Nat) :
    ((s.createEntity i).deleteEntity i).cliInfo i = Except.error "CLIReturnCodeError" ∧
    ((s.createEntity i).deleteEntity i).apiRead i = Except.error "HTTPError" := by
  have h : i ∉ ((s.createEntity i).deleteEntity i).ids := by
    simp [EntityStore.createEntity, EntityStore.deleteEntity, List.mem_filter]
  constructor <;> simp [EntityStore.cliInfo, EntityStore.apiRead, h]

/-- Folding promotions over pairwise-distinct environments not yet containing
the version grows the environment set by one per promotion. -/
theorem promote_foldl_card (envs : List Nat) (v : ContentViewVersion)
    (hnd : envs.Nodup) (hdisj : ∀ x ∈ envs, x ∉ v.environment) :
    (List.foldl promote v envs).environment.card =
      v.environment.card + envs.length := by
  induction envs generalizing v with
  | nil => simp
  | cons e es ih =>
    have hes : es.Nodup := (List.nodup_cons.mp hnd).2
    have hene : e ∉ v.environment := hdisj e (List.mem_cons_self e es)
    have hd2 : ∀ x ∈ es, x ∉ (promote v e).environment := by
      intro x hx
      have hxe : x ≠ e := fun hxx => (List.nodup_cons.mp hnd).1 (hxx ▸ hx)
      have hxv : x ∉ v.environment := hdisj x (List.mem_cons_of_mem e hx)
      simp [promote, Finset.mem_insert, hxe, hxv]
    have hcard : (promote v e).environment.card = v.environment.card + 1 := by
      simpa [promote] using Finset.card_insert_of_not_mem hene
    calc (List.foldl promote v (e :: es)).environment.card
        = (List.foldl promote (promote v e) es).environment.card := rfl
      _ = (promote v e).environment.card + es.length := ih (promote v e) hes hd2
      _ = v.environment.card + 1 + es.length := by rw [hcard]
      _ = v.environment.card + (e :: es).length := by
          simp only [List.length_cons]
          omega

/-- C8: a freshly published version is in exactly one environment; promoting
a version to an environment it is not yet in adds exactly one environment;
after `k` promotions to distinct new environments the version is in `k + 1`
environments. -/
theorem promote_adds_exactly_one_env (lib e : Nat) (v : ContentViewVersion)
    (envs : List Nat) (hn : envs.Nodup) (hl : lib ∉ envs)
    (he : e ∉ v.environment) :
    (publishVersion lib).environment.card = 1 ∧
    (promote v e).environment.card = v.environment.card + 1 ∧
    (List.foldl promote (publishVersion lib) envs).environment.card =
      envs.length + 1 := by
  refine ⟨by simp [publishVersion], ?_, ?_⟩
  · simpa [promote] using Finset.card_insert_of_not_mem he
  · have hdisj : ∀ x ∈ envs, x ∉ (publishVersion lib).environment := by
      intro x hx
      simp only [publishVersion, Finset.mem_singleton]
      exact fun hxl => hl (hxl ▸ hx)
    rw [promote_foldl_card envs (publishVersion lib) hn hdisj]
    simp [publishVersion, Nat.add_comm]

/-- Witness for C8 at a concrete published version promoted twice. -/
theorem promote_adds_exactly_one_env_witness :
    (List.foldl promote (publishVersion 0) [1, 2]).environment.card =
      [1, 2].length + 1 :=
  (promote_adds_exactly_one_env 0 3 (publishVersion 0) [1, 2]
    (by decide) (by decide) (by decide)).2.2

/-- C9: when `orgs` is `None` or the empty list, `create` never invokes the
association editor `configure_entity`; the trace is exactly the
new-environment click, the bounded wait (typing the name when the field
appears), and the submit click. -/
theorem env_create_no_orgs_frame (b : Browser) (name : String)
    (orgs : Option (List String)) (sel : Bool)
    (h : orgsTruthy orgs = false) :
    (∀ o fk t nl es,
      Action.configureEntity o fk t nl es ∉ Environment.create b name orgs sel) ∧
    Environment.create b name orgs sel =
      [Action.click Locator.envNew,
       Action.wait Locator.envName (b.waitFinds Locator.envName).isSome]
      ++ (match b.waitFinds Locator.envName with
          | some _ => [Action.sendKeys Locator.envName name]
          | none => [])
      ++ [Action.click Locator.submit] := by
  rcases hw : b.waitFinds Locator.envName with _ | f <;>
    simp [Environment.create, h, hw]

/-- Witness for C9: `create` with `None` orgs on the all-finding browser. -/
theorem env_create_no_orgs_frame_witness :
    Environment.create okBrowser "n" none true =
      [Action.click Locator.envNew, Action.wait Locator.envName true,
       Action.sendKeys Locator.envName "n", Action.click Locator.submit] :=
  (env_create_no_orgs_frame okBrowser "n" none true rfl).2

/-- C10: on a located entity, the name field is rewritten only when a
non-empty `new_name` is supplied and the field is present; with `new_name`
absent no field rewrite happens, while the association configuration and the
submit click take place unconditionally. -/
theorem env_update_rename_frame (b : Browser) (old_name : String) (e : Element)
    (orgs new_orgs : Option (List String)) (new_name : Option String) (sel : Bool)
    (hs : (Environment.search b old_name).1 = some e) :
    (new_name = none →
      ∀ fld t, Action.fieldUpdate fld t ∉
        Environment.update b old_name orgs new_orgs new_name sel) ∧
    (∀ fld t, Action.fieldUpdate fld t ∈
        Environment.update b old_name orgs new_orgs new_name sel →
      (b.waitFinds Locator.envName).isSome = true ∧
        ∃ nn, new_name = some nn ∧ nn ≠ "") ∧
    Action.configureEntity orgs envOrgFilter Locator.tabOrg new_orgs sel ∈
      Environment.update b old_name orgs new_orgs new_name sel ∧
    Action.click Locator.submit ∈
      Environment.update b old_name orgs new_orgs new_name sel := by
  have hupd : Environment.update b old_name orgs new_orgs new_name sel =
      (Environment.search b old_name).2 ++
        ([Action.clickElement e,
          Action.wait Locator.envName (b.waitFinds Locator.envName).isSome]
         ++ (match b.waitFinds Locator.envName, new_name with
             | some _, some nn =>
               if nn = "" then [] else [Action.fieldUpdate "env.name" nn]
             | _, _ => [])
         ++ [Action.configureEntity orgs envOrgFilter Locator.tabOrg new_orgs sel,
             Action.click Locator.submit]) := by
    unfold Environment.update Environment.updateBody
    rw [hs]
  rw [hupd, env_search_trace_eq]
  rcases hw : b.waitFinds Locator.envName with _ | f <;>
    rcases new_name with _ | nn
  · simp
  · simp
  · simp
  · by_cases hnn : nn = "" <;> simp [hnn]

/-- Witness for C10 on the all-finding browser with a supplied new name. -/
theorem env_update_rename_frame_witness :
    Action.configureEntity none envOrgFilter Locator.tabOrg none false ∈
      Environment.update okBrowser "x" none none (some "z") false :=
  (env_update_rename_frame okBrowser "x" ⟨"x"⟩ none none (some "z") false
    (by decide)).2.2.1

end Robottelo
